import Mathlib

/-!
Shallow embedding of the RAG client (thanh140603/RAG, `client/src`) together
with spec-modelled fragments of the backend retrieval scoping and token
governor, and proofs of the spec claims about them.
-/

namespace RAG

/-- JS `x || null` on an optional string: `undefined`/`null` and the empty
string (falsy) become `null`; any other string passes through. -/
def jsOrNull : Option String → Option String
  | some s => if s = "" then none else some s
  | none => none

/-- JS whitespace test used by `String.prototype.trim`. -/
def isJsWhitespace (c : Char) : Bool :=
  c == ' ' || c == '\t' || c == '\n' || c == '\r'

/-- JS `s.trim()`: strip leading and trailing whitespace. -/
def jsTrim (s : String) : String :=
  String.mk (((s.data.dropWhile isJsWhitespace).reverse.dropWhile isJsWhitespace).reverse)

/-- JS `error.response?.data?.detail || fallback`: a missing or empty detail
falls back to the fixed message. -/
def errDetail (detail : Option String) (fallback : String) : String :=
  match detail with
  | some d => if d = "" then fallback else d
  | none => fallback

/-- A failed API call carries the optional `error.response?.data?.detail`. -/
abbrev ApiErr := Option String

/-- Message role, from `domain/entities/ChatMessage.ts`. -/
inductive Role where
  | user
  | assistant
deriving DecidableEq, Repr

/-- `ChatMessage` from `domain/entities/ChatMessage.ts`. -/
structure ChatMessage where
  id : String
  session_id : String
  role : Role
  content : String
  created_at : String
deriving DecidableEq, Repr

/-- `ChatSession` from `domain/entities/ChatMessage.ts`. -/
structure ChatSession where
  id : String
  user_id : String
  title : Option String
  created_at : String
  updated_at : String
  messages : List ChatMessage
deriving DecidableEq, Repr

/-- The state fields of the zustand chat store (`useChatStore.ts`). -/
structure ChatState where
  sessions : List ChatSession
  currentSession : Option ChatSession
  messages : List ChatMessage
  isLoading : Bool
  isSending : Bool
  error : Option String
deriving DecidableEq, Repr

/-- `ChatQueryRequest` from `infrastructure/api/ChatApi.ts`. -/
structure ChatQueryRequest where
  query : String
  chat_id : Option String
  use_multi_query : Option Bool
  use_step_back : Option Bool
  group_id : Option String
deriving DecidableEq, Repr

/-- `ChatQueryResponse` from `infrastructure/api/ChatApi.ts` (the `metadata`
field is not used by the store and is omitted). -/
structure ChatQueryResponse where
  message : String
  sources : List String
deriving DecidableEq, Repr

/-- `ChatService.sendMessage` (in `application/services`): the request it
builds before calling `chatApi.query`.  The expansion flags are the literals
written in the source (`use_multi_query: true`, `use_step_back: false`), and
`group_id` is `groupId || null`. -/
def ChatService.sendMessageRequest (query : String) (sessionId : Option String)
    (groupId : Option String) : ChatQueryRequest :=
  { query := query
    chat_id := sessionId
    use_multi_query := some true
    use_step_back := some false
    group_id := jsOrNull groupId }

/-- Body of `POST /api/chats/{chat_id}/messages` as built by `ChatApi.query`. -/
structure MessagesBody where
  content : String
  use_multi_query : Option Bool
  use_step_back : Option Bool
  group_id : Option String
deriving DecidableEq, Repr

/-- The request `ChatApi.query` actually sends to the backend: the
`/api/chats/{chat_id}/messages` endpoint when a `chat_id` is present,
otherwise the `/api/rag/query` endpoint with the request forwarded verbatim. -/
inductive SentQuery where
  | messages (chatId : String) (body : MessagesBody)
  | ragQuery (body : ChatQueryRequest)
deriving DecidableEq, Repr

/-- `ChatApi.query` (in `infrastructure/api/ChatApi.ts`): which endpoint and
body are sent for a given `ChatQueryRequest`. -/
def ChatApi.querySent (r : ChatQueryRequest) : SentQuery :=
  match r.chat_id with
  | some cid =>
      SentQuery.messages cid
        { content := r.query
          use_multi_query := r.use_multi_query
          use_step_back := r.use_step_back
          group_id := jsOrNull r.group_id }
  | none => SentQuery.ragQuery r

/-- The group filter carried by a sent query. -/
def SentQuery.groupId : SentQuery → Option String
  | SentQuery.messages _ b => b.group_id
  | SentQuery.ragQuery r => r.group_id

/-- The multi-query flag carried by a sent query. -/
def SentQuery.multiQueryFlag : SentQuery → Option Bool
  | SentQuery.messages _ b => b.use_multi_query
  | SentQuery.ragQuery r => r.use_multi_query

/-- The step-back flag carried by a sent query. -/
def SentQuery.stepBackFlag : SentQuery → Option Bool
  | SentQuery.messages _ b => b.use_step_back
  | SentQuery.ragQuery r => r.use_step_back

/-- `fetchSessions` of `useChatStore`: sets `isLoading`/clears `error`, then
either installs the fetched session list or records the failure detail. -/
def fetchSessions (s : ChatState) (r : Except ApiErr (List ChatSession)) : ChatState :=
  let s' := { s with isLoading := true, error := none }
  match r with
  | Except.ok sessions => { s' with sessions := sessions, isLoading := false }
  | Except.error e =>
      { s' with error := some (errDetail e "Failed to fetch sessions"), isLoading := false }

/-- `createSession` of `useChatStore` (state effect; the thrown error is
re-raised to the caller but the state update is the same). -/
def createSession (s : ChatState) (r : Except ApiErr ChatSession) : ChatState :=
  let s' := { s with isLoading := true, error := none }
  match r with
  | Except.ok session =>
      { s' with sessions := session :: s.sessions
                currentSession := some session
                messages := session.messages
                isLoading := false }
  | Except.error e =>
      { s' with error := some (errDetail e "Failed to create session"), isLoading := false }

/-- `selectSession` of `useChatStore`: replaces `currentSession` and
`messages` with the server's copy of the session, or records the error. -/
def selectSession (s : ChatState) (r : Except ApiErr ChatSession) : ChatState :=
  let s' := { s with isLoading := true, error := none }
  match r with
  | Except.ok session =>
      { s' with currentSession := some session
                messages := session.messages
                isLoading := false }
  | Except.error e =>
      { s' with error := some (errDetail e "Failed to load session"), isLoading := false }

/-- The optimistic user message built by `sendMessage`
(`id: temp-${Date.now()}`, `session_id: currentSession?.id || ''`). -/
def userMessageOf (s : ChatState) (query : String) (now1 : Nat) (iso1 : String) : ChatMessage :=
  { id := "temp-" ++ toString now1
    session_id := (s.currentSession.map (fun cs => cs.id)).getD ""
    role := Role.user
    content := query
    created_at := iso1 }

/-- The assistant message `sendMessage` builds locally from the backend
response text (`id: assistant-${Date.now()}`). -/
def assistantMessageOf (s : ChatState) (resp : ChatQueryResponse) (now2 : Nat)
    (iso2 : String) : ChatMessage :=
  { id := "assistant-" ++ toString now2
    session_id := (s.currentSession.map (fun cs => cs.id)).getD ""
    role := Role.assistant
    content := resp.message
    created_at := iso2 }

/-- The session-refresh block `sendMessage` runs after a successful query
when a session is current: an inner `fetchSessions` (which traps its own
failure), then a direct `chatService.getSessions` whose failure falls into
the surrounding catch — recording the error, clearing `isSending` and
filtering out the optimistic user message by its id `tempId` — and on
success an update of `currentSession` when the title changed. -/
def refreshAfterSend (s2 : ChatState) (cs : ChatSession) (tempId : String)
    (fetchRes getRes : Except ApiErr (List ChatSession)) : ChatState :=
  let s3 := fetchSessions s2 fetchRes
  match getRes with
  | Except.error e =>
      { s3 with error := some (errDetail e "Failed to send message")
                isSending := false
                messages := s3.messages.filter (fun m => !(m.id == tempId)) }
  | Except.ok updatedSessions =>
      match updatedSessions.find? (fun t => t.id == cs.id) with
      | some us =>
          if us.title ≠ cs.title then { s3 with currentSession := some us } else s3
      | none => s3

/-- `sendMessage` of `useChatStore`, with the outcomes of its three awaited
calls made explicit: `queryRes` for `chatService.sendMessage`, and — when a
session is current — `fetchRes` for the inner `fetchSessions` refresh and
`getRes` for the direct `chatService.getSessions` call.  `now1`/`iso1` and
`now2`/`iso2` stand for the `Date.now()` / `toISOString()` readings at the
two message constructions. -/
def sendMessage (s : ChatState) (query : String)
    (now1 now2 : Nat) (iso1 iso2 : String)
    (queryRes : Except ApiErr ChatQueryResponse)
    (fetchRes : Except ApiErr (List ChatSession))
    (getRes : Except ApiErr (List ChatSession)) : ChatState :=
  if jsTrim query = "" then s
  else
    let userMessage := userMessageOf s query now1 iso1
    let s1 := { s with messages := s.messages ++ [userMessage]
                       isSending := true
                       error := none }
    match queryRes with
    | Except.error e =>
        { s1 with error := some (errDetail e "Failed to send message")
                  isSending := false
                  messages := s1.messages.filter (fun m => !(m.id == userMessage.id)) }
    | Except.ok resp =>
        let assistantMessage := assistantMessageOf s resp now2 iso2
        let s2 := { s1 with messages := s1.messages ++ [assistantMessage]
                            isSending := false }
        match s.currentSession with
        | none => s2
        | some cs => refreshAfterSend s2 cs userMessage.id fetchRes getRes

/-- `deleteSession` of `useChatStore`. -/
def deleteSession (s : ChatState) (id : String) (r : Except ApiErr Unit) : ChatState :=
  let s' := { s with isLoading := true, error := none }
  match r with
  | Except.ok _ =>
      { s' with sessions := s.sessions.filter (fun t => !(t.id == id))
                currentSession :=
                  match s.currentSession with
                  | some cs => if cs.id = id then none else some cs
                  | none => none
                messages :=
                  match s.currentSession with
                  | some cs => if cs.id = id then [] else s.messages
                  | none => s.messages
                isLoading := false }
  | Except.error e =>
      { s' with error := some (errDetail e "Failed to delete session"), isLoading := false }

/-- `updateSessionTitle` of `useChatStore`. -/
def updateSessionTitle (s : ChatState) (id : String) (r : Except ApiErr ChatSession) : ChatState :=
  let s' := { s with isLoading := true, error := none }
  match r with
  | Except.ok us =>
      { s' with sessions := s.sessions.map (fun t => if t.id = id then us else t)
                currentSession :=
                  match s.currentSession with
                  | some cs => if cs.id = id then some us else some cs
                  | none => none
                isLoading := false }
  | Except.error e =>
      { s' with error := some (errDetail e "Failed to update title"), isLoading := false }

/-- `setError` of `useChatStore`. -/
def setChatError (s : ChatState) (e : Option String) : ChatState :=
  { s with error := e }

/-- A chunk as seen by the backend retrieval signals: identity, owning user,
optional owning group. -/
structure CorpusChunk where
  chunk_id : String
  user_id : String
  group_id : Option String
deriving DecidableEq, Repr

/-- Modelled from the spec: the mandatory scoping of the HybridRetriever
(§4.3) — the backend retrieval code is not part of the inspected sources, so
the scope filter `(user_id, optional group_id)` applied to both the
VectorSearch and the KeywordSearch candidate streams is taken from the
spec's words. -/
def scopeFilter (corpus : List CorpusChunk) (u : String) (g : Option String) :
    List CorpusChunk :=
  corpus.filter fun c =>
    c.user_id == u &&
      match g with
      | some gid => c.group_id == some gid
      | none => true

/-- Insert a chunk into a list already ordered by descending score. -/
def insertRanked (score : CorpusChunk → Int) (c : CorpusChunk) :
    List CorpusChunk → List CorpusChunk
  | [] => [c]
  | d :: ds => if score d < score c then c :: d :: ds else d :: insertRanked score c ds

/-- Order chunks by descending score (insertion sort). -/
def rankByScore (score : CorpusChunk → Int) : List CorpusChunk → List CorpusChunk
  | [] => []
  | c :: cs => insertRanked score c (rankByScore score cs)

/-- Modelled from the spec: one retrieval signal's candidate list (§4.3) —
scope the corpus to the requesting user and optional group, rank by the
signal's score, take the top `K`.  The signal's scoring function is a
parameter; the scoping is applied identically for every signal and every
expanded query. -/
def candidateList (score : CorpusChunk → Int) (K : Nat)
    (corpus : List CorpusChunk) (u : String) (g : Option String) : List CorpusChunk :=
  (rankByScore score (scopeFilter corpus u g)).take K

/-- One provider call as the TokenGovernor sees it: the estimated cost used
by `checkAndReserve` and the actual cost reported to `commit`. -/
structure GovCall where
  est : Nat
  actual : Nat
deriving DecidableEq, Repr

/-- Modelled from the spec: one atomic TokenGovernor step (§4.7) — with a
configured limit, `checkAndReserve` denies when the committed usage plus the
estimated cost would exceed the limit; an allowed call later commits its
actual cost (never the estimate).  Returns the new committed counter and the
Allow/Deny decision. -/
def govStep (limit : Option Nat) (committed : Nat) (c : GovCall) : Nat × Bool :=
  match limit with
  | some l =>
      if committed + c.est ≤ l then (committed + c.actual, true) else (committed, false)
  | none => (committed + c.actual, true)

/-- Modelled from the spec: a serialized run of the TokenGovernor over a
sequence of calls (§4.7, §5) — increments are atomic, so any concurrent
execution is equivalent to processing the calls in some serial order; the
list argument is that (arbitrary) order.  Returns the final committed usage
and the per-call Allow/Deny decisions. -/
def govRun (limit : Option Nat) (committed : Nat) : List GovCall → Nat × List Bool
  | [] => (committed, [])
  | c :: cs =>
      let st := govStep limit committed c
      let r := govRun limit st.1 cs
      (r.1, st.2 :: r.2)

/-- `User` from `domain/entities/User.ts`. -/
structure User where
  id : String
  email : String
  name : String
  role : String
deriving DecidableEq, Repr

/-- The state fields of the zustand auth store (`useAuthStore.ts`). -/
structure AuthState where
  user : Option User
  token : Option String
  isAuthenticated : Bool
  isLoading : Bool
  error : Option String
deriving DecidableEq, Repr

/-- Browser `localStorage`, as a key-value association list. -/
abbrev Storage := List (String × String)

/-- `localStorage.removeItem(key)`. -/
def removeItem (st : Storage) (key : String) : Storage :=
  st.filter fun p => !(p.1 == key)

/-- `localStorage.getItem(key)`. -/
def getItem (st : Storage) (key : String) : Option String :=
  st.lookup key

/-- `AuthService.logout`: `try { await authApi.logout() } finally {
localStorage.removeItem('auth_token') }` — the removal runs whether or not
the API call throws, and a thrown error propagates (second component). -/
def AuthService.logout (storage : Storage) (apiThrows : Bool) : Storage × Bool :=
  (removeItem storage "auth_token", apiThrows)

/-- `logout` of `useAuthStore`: `try { await authService.logout() } finally {
set({user: null, token: null, isAuthenticated: false}) }` — the state is
cleared whether or not the service call throws.  Returns the new store
state, the new localStorage, and whether an exception propagates. -/
def authLogout (s : AuthState) (storage : Storage) (apiThrows : Bool) :
    AuthState × Storage × Bool :=
  let r := AuthService.logout storage apiThrows
  ({ s with user := none, token := none, isAuthenticated := false }, r.1, r.2)

/-- `Document` from `domain/entities/Document.ts` (optional fields not read
by the store are kept for fidelity of the record). -/
structure Document where
  id : String
  user_id : String
  filename : String
  file_size : Nat
  mime_type : String
  status : String
  group_id : Option String
  created_at : String
  updated_at : String
deriving DecidableEq, Repr

/-- The state fields of the zustand document store (`useDocumentStore`). -/
structure DocumentState where
  documents : List Document
  selectedDocument : Option Document
  isLoading : Bool
  error : Option String
  uploadProgress : Nat
deriving DecidableEq, Repr

/-- `deleteDocument` of `useDocumentStore`: on success, filter the document
out of the list and null the selection when it was the deleted one; on
failure, record only the error and clear `isLoading`. -/
def deleteDocument (s : DocumentState) (id : String) (r : Except ApiErr Unit) :
    DocumentState :=
  let s' := { s with isLoading := true, error := none }
  match r with
  | Except.ok _ =>
      { s' with documents := s.documents.filter (fun d => !(d.id == id))
                selectedDocument :=
                  match s.selectedDocument with
                  | some sd => if sd.id = id then none else some sd
                  | none => none
                isLoading := false }
  | Except.error e =>
      { s' with error := some (errDetail e "Delete failed"), isLoading := false }

/-- A GET request: path plus query parameters. -/
structure GetRequest where
  path : String
  params : List (String × String)
deriving DecidableEq, Repr

/-- `TokenApi.getSummary` (in `infrastructure/api/TokenApi.ts`): the request
it sends — `GET /api/tokens/summary` with no parameters; the response is a
`TokenUsageSummary[]` covering every provider. -/
def TokenApi.getSummaryRequest : GetRequest :=
  { path := "/api/tokens/summary", params := [] }

/-- `TokenApi.getUsage(provider?, days = 30)`: the request it sends —
`GET /api/tokens/usage` with a `provider` parameter only when one is given,
and always a `days` parameter. -/
def TokenApi.getUsageRequest (provider : Option String) (days : Nat) : GetRequest :=
  { path := "/api/tokens/usage"
    params :=
      (match provider with
       | some p => [("provider", p)]
       | none => []) ++ [("days", toString days)] }

/-- The usage-summary request as the spec's interface list describes it
(`getUsageSummary(provider)`): a summary request scoped to one provider.
Stated only to be compared with `TokenApi.getSummaryRequest`, which the code
actually sends. -/
def getUsageSummaryRequestSpec (provider : String) : GetRequest :=
  { path := "/api/tokens/summary", params := [("provider", provider)] }

/-- The fields of a browser `File` that `DocumentService.uploadFile` reads. -/
structure FileInfo where
  name : String
  size : Nat
  type : String
deriving DecidableEq, Repr

/-- One entry of `UploadRequest.files` (`domain/entities/UploadRequest.ts`). -/
structure UploadFileSpec where
  filename : String
  file_size : Nat
  content_type : String
deriving DecidableEq, Repr

/-- `UploadRequest` from `domain/entities/UploadRequest.ts`. -/
structure UploadRequest where
  files : List UploadFileSpec
  group_id : Option String
deriving DecidableEq, Repr

/-- One entry of `UploadRequestResponse.uploads`. -/
structure UploadItem where
  document_id : String
  filename : String
  content_type : String
  upload_url : String
  storage_key : String
  expires_in : Nat
deriving DecidableEq, Repr

/-- `UploadRequestResponse` from `domain/entities/UploadRequest.ts`. -/
structure UploadRequestResponse where
  uploads : List UploadItem
deriving DecidableEq, Repr

/-- `UploadConfirmRequest` from `domain/entities/UploadRequest.ts`; the code
builds it without `checksum`/`metadata`. -/
structure UploadConfirmRequest where
  document_id : String
  file_size : Nat
  group_id : Option String
deriving DecidableEq, Repr

/-- One outward call of the client's upload sequence. -/
inductive UploadStep where
  | requestUpload (req : UploadRequest)
  | putFile (url : String) (f : FileInfo)
  | confirmUpload (req : UploadConfirmRequest)
deriving DecidableEq, Repr

/-- `DocumentService.uploadFile`: the ordered list of outward calls it makes
and the document it returns, given the responses of the two API calls.  When
the upload-request response has no entries the code crashes on
`response.uploads[0]` (modelled as `none`). -/
def DocumentService.uploadFile (file : FileInfo) (groupId : Option String)
    (resp : UploadRequestResponse) (confirmed : Document) :
    Option (List UploadStep × Document) :=
  let uploadRequest : UploadRequest :=
    { files := [{ filename := file.name, file_size := file.size, content_type := file.type }]
      group_id := jsOrNull groupId }
  match resp.uploads with
  | [] => none
  | item :: _ =>
      let confirmReq : UploadConfirmRequest :=
        { document_id := item.document_id
          file_size := file.size
          group_id := jsOrNull groupId }
      some ([UploadStep.requestUpload uploadRequest,
             UploadStep.putFile item.upload_url file,
             UploadStep.confirmUpload confirmReq], confirmed)

/-- Modelled from the spec: the upload-confirmation endpoint
(`/api/documents/upload/confirm`) is the trigger for asynchronous,
fire-and-forget ingestion (§2 control flow, §6) — the backend handler is not
part of the inspected sources, so only which client step triggers ingestion
is modelled. -/
def triggersIngestion : UploadStep → Bool
  | UploadStep.confirmUpload _ => true
  | _ => false

/-- Membership in an insertion step comes from the inserted element or the
original list. -/
theorem mem_insertRanked {score : CorpusChunk → Int} {c x : CorpusChunk} :
    ∀ {l : List CorpusChunk}, x ∈ insertRanked score c l → x = c ∨ x ∈ l := by
  intro l
  induction l with
  | nil => intro h; simpa [insertRanked] using h
  | cons d ds ih =>
      intro h
      by_cases hlt : score d < score c
      · simp only [insertRanked, if_pos hlt, List.mem_cons] at h
        rcases h with h | h | h
        · exact Or.inl h
        · exact Or.inr (by simp [h])
        · exact Or.inr (List.mem_cons_of_mem _ h)
      · simp only [insertRanked, if_neg hlt, List.mem_cons] at h
        rcases h with h | h
        · exact Or.inr (by simp [h])
        · rcases ih h with h' | h'
          · exact Or.inl h'
          · exact Or.inr (List.mem_cons_of_mem _ h')

/-- Ranking by score does not introduce new chunks. -/
theorem mem_rankByScore {score : CorpusChunk → Int} {x : CorpusChunk} :
    ∀ {l : List CorpusChunk}, x ∈ rankByScore score l → x ∈ l := by
  intro l
  induction l with
  | nil =>
      intro h
      simp [rankByScore] at h
  | cons c cs ih =>
      intro h
      rcases mem_insertRanked h with h' | h'
      · simp [h']
      · exact List.mem_cons_of_mem _ (ih h')

/-- Every chunk passing the scope filter belongs to the requested user and,
when a group filter is set, to that group. -/
theorem mem_scopeFilter {corpus : List CorpusChunk} {u : String} {g : Option String}
    {c : CorpusChunk} (h : c ∈ scopeFilter corpus u g) :
    c.user_id = u ∧ ∀ gid, g = some gid → c.group_id = some gid := by
  rw [scopeFilter, List.mem_filter] at h
  rcases h with ⟨-, hp⟩
  rw [Bool.and_eq_true] at hp
  rcases hp with ⟨hu, hg⟩
  refine ⟨by simpa using hu, ?_⟩
  intro gid hgid
  subst hgid
  simpa using hg

/-- The local assistant message id can never collide with the optimistic
user message id: the two literal id namespaces differ. -/
theorem assistant_id_ne_temp_id (x y : String) :
    ("assistant-" ++ x) ≠ ("temp-" ++ y) := by
  intro h
  have h2 : ("assistant-" ++ x).data = ("temp-" ++ y).data := congrArg String.data h
  rw [String.data_append, String.data_append] at h2
  have ha : ("assistant-" : String).data = ['a', 's', 's', 'i', 's', 't', 'a', 'n', 't', '-'] := rfl
  have ht : ("temp-" : String).data = ['t', 'e', 'm', 'p', '-'] := rfl
  rw [ha, ht] at h2
  simp at h2

/-- Filtering a key out of an association list makes lookups of it fail. -/
theorem lookup_filter_out (key : String) :
    ∀ st : Storage, ((st.filter fun p => !(p.1 == key)).lookup key) = none := by
  intro st
  induction st with
  | nil => rfl
  | cons p ps ih =>
      obtain ⟨k, v⟩ := p
      by_cases hk : k = key
      · subst hk
        simpa [List.filter_cons] using ih
      · have hb : (k == key) = false := by simpa using hk
        have hkb : (key == k) = false := by simpa using (Ne.symm hk)
        simpa [List.filter_cons, hb, List.lookup, hkb] using ih

/-- Removing a key from storage makes lookups of that key fail. -/
theorem getItem_removeItem (st : Storage) (key : String) :
    getItem (removeItem st key) key = none :=
  lookup_filter_out key st

/-- The final committed counter equals the starting counter plus the actual
cost of every allowed call (each counted exactly once): no lost updates, no
double counting. -/
theorem govRun_committed_sum (limit : Option Nat) :
    ∀ (calls : List GovCall) (c : Nat),
      (govRun limit c calls).1 =
        c + (((calls.zip (govRun limit c calls).2).map
               (fun p => if p.2 then p.1.actual else 0)).sum) := by
  intro calls
  induction calls with
  | nil => intro c; simp [govRun]
  | cons call cs ih =>
      intro c
      rcases limit with _ | l
      · simp only [govRun, govStep, List.zip_cons_cons, List.map_cons, List.sum_cons,
          reduceIte]
        rw [ih]
        omega
      · by_cases hle : c + call.est ≤ l
        · simp only [govRun, govStep, if_pos hle, List.zip_cons_cons, List.map_cons,
            List.sum_cons, reduceIte]
          rw [ih]
          omega
        · simp only [govRun, govStep, if_neg hle, List.zip_cons_cons, List.map_cons,
            List.sum_cons, reduceIte]
          rw [ih, show (if false = true then call.actual else 0) = 0 from rfl]
          omega

/-- A step with a configured limit is denied exactly when the committed usage
plus the estimated cost would exceed the limit. -/
theorem govStep_denied_iff (l committed : Nat) (c : GovCall) :
    (govStep (some l) committed c).2 = false ↔ l < committed + c.est := by
  by_cases hle : committed + c.est ≤ l
  · simp only [govStep, if_pos hle]
    simp
    omega
  · simp only [govStep, if_neg hle]
    simp
    omega

/-- Decisions already issued are never changed by later calls: the decision
list for a run is a stable prelude of the decision list of any extended run. -/
theorem govRun_decisions_stable (limit : Option Nat) :
    ∀ (calls more : List GovCall) (c : Nat),
      ((govRun limit c (calls ++ more)).2).take calls.length = (govRun limit c calls).2 := by
  intro calls
  induction calls with
  | nil => intro more c; simp [govRun]
  | cons call cs ih =>
      intro more c
      simp only [List.cons_append, govRun, List.length_cons, List.take_succ_cons]
      rw [List.append_eq, ih]

/-- Invariant step for the overshoot bound: starting at or below
`limit + B`, one run keeps the committed counter at or below `limit + B`
whenever every call's actual cost exceeds its estimate by at most `B`. -/
theorem govRun_bounded (l B : Nat) :
    ∀ (calls : List GovCall) (c : Nat),
      c ≤ l + B → (∀ call ∈ calls, call.actual ≤ call.est + B) →
      (govRun (some l) c calls).1 ≤ l + B := by
  intro calls
  induction calls with
  | nil => intro c hc _; simpa [govRun] using hc
  | cons call cs ih =>
      intro c hc hcalls
      by_cases hle : c + call.est ≤ l
      · simp only [govRun, govStep, if_pos hle]
        refine ih _ ?_ (fun x hx => hcalls x (List.mem_cons_of_mem _ hx))
        have := hcalls call (List.mem_cons_self _ _)
        omega
      · simp only [govRun, govStep, if_neg hle]
        exact ih _ hc (fun x hx => hcalls x (List.mem_cons_of_mem _ hx))

/-- C1: every candidate list of a retrieval scoped to user `u` (and to group
`g` when a group filter is set) contains only chunks owned by `u` and — when
`g = some gid` — by group `gid`, for every retrieval signal (any scoring
function) and any top-K; and at the client boundary, the query request built
by `ChatService.sendMessage` — and the request `ChatApi.query` then sends to
the backend — carries the caller's group filter: `group_id` equal to the
selected group, or null when none is selected. -/
theorem retrieval_scoping_and_client_group_filter :
    (∀ (score : CorpusChunk → Int) (K : Nat) (corpus : List CorpusChunk)
        (u : String) (g : Option String) (c : CorpusChunk),
        c ∈ candidateList score K corpus u g →
        c.user_id = u ∧ ∀ gid, g = some gid → c.group_id = some gid)
    ∧ (∀ (query : String) (sessionId : Option String) (groupId : Option String),
        groupId ≠ some "" →
        (ChatService.sendMessageRequest query sessionId groupId).group_id = groupId
        ∧ (ChatApi.querySent (ChatService.sendMessageRequest query sessionId groupId)).groupId
            = groupId) := by
  constructor
  · intro score K corpus u g c hc
    have h1 : c ∈ rankByScore score (scopeFilter corpus u g) :=
      List.take_subset _ _ hc
    exact mem_scopeFilter (mem_rankByScore h1)
  · intro query sessionId groupId hne
    have hg : jsOrNull groupId = groupId := by
      cases groupId with
      | none => rfl
      | some s =>
          have hs : ¬(s = "") := fun hse => hne (by rw [hse])
          simp [jsOrNull, hs]
    refine ⟨hg, ?_⟩
    cases sessionId with
    | none => simp [ChatApi.querySent, ChatService.sendMessageRequest, SentQuery.groupId, hg]
    | some cid => simp [ChatApi.querySent, ChatService.sendMessageRequest, SentQuery.groupId, hg]

/-- Witness for C1 at a concrete corpus, group filter and request. -/
theorem retrieval_scoping_and_client_group_filter_witness :
    ((⟨"c1", "u1", some "g1"⟩ : CorpusChunk) ∈
        candidateList (fun _ => 0) 2
          [⟨"c1", "u1", some "g1"⟩, ⟨"c2", "u2", some "g1"⟩] "u1" (some "g1"))
    ∧ ((⟨"c1", "u1", some "g1"⟩ : CorpusChunk).user_id = "u1"
        ∧ ∀ gid, (some "g1" : Option String) = some gid →
            (⟨"c1", "u1", some "g1"⟩ : CorpusChunk).group_id = some gid)
    ∧ ((some "g1" : Option String) ≠ some "")
    ∧ ((ChatService.sendMessageRequest "hello" (some "chat1") (some "g1")).group_id = some "g1"
        ∧ (ChatApi.querySent
            (ChatService.sendMessageRequest "hello" (some "chat1") (some "g1"))).groupId
            = some "g1") :=
  ⟨by decide,
   retrieval_scoping_and_client_group_filter.1 (fun _ => 0) 2
     [⟨"c1", "u1", some "g1"⟩, ⟨"c2", "u2", some "g1"⟩] "u1" (some "g1")
     ⟨"c1", "u1", some "g1"⟩ (by decide),
   by decide,
   retrieval_scoping_and_client_group_filter.2 "hello" (some "chat1") (some "g1") (by decide)⟩

/-- C2 counterexample: at concrete caller inputs of the exposed query
operation (with and without a session, with and without a group), the
request's expansion flags are the client's hardcoded literals — multi-query
`true`, step-back `false` — not values chosen by the caller, who has no
parameter to pass them through. -/
theorem expansion_flags_fixed_counterexample :
    (ChatService.sendMessageRequest "what is RAG" (some "chat1") none).use_multi_query = some true
    ∧ (ChatService.sendMessageRequest "what is RAG" (some "chat1") none).use_step_back = some false
    ∧ (ChatService.sendMessageRequest "other query" none (some "g2")).use_multi_query = some true
    ∧ (ChatService.sendMessageRequest "other query" none (some "g2")).use_step_back = some false :=
  ⟨rfl, rfl, rfl, rfl⟩

/-- C2 (amended): for every query submitted through the client's exposed
query operation, the `use_multi_query` and `use_step_back` values in the
request sent to the backend are fixed by the client — always `true` and
`false` respectively — regardless of the caller's inputs; the caller
supplies no expansion flags. -/
theorem expansion_flags_fixed :
    ∀ (query : String) (sessionId : Option String) (groupId : Option String),
      (ChatService.sendMessageRequest query sessionId groupId).use_multi_query = some true
      ∧ (ChatService.sendMessageRequest query sessionId groupId).use_step_back = some false
      ∧ (ChatApi.querySent
          (ChatService.sendMessageRequest query sessionId groupId)).multiQueryFlag = some true
      ∧ (ChatApi.querySent
          (ChatService.sendMessageRequest query sessionId groupId)).stepBackFlag = some false := by
  intro query sessionId groupId
  refine ⟨rfl, rfl, ?_, ?_⟩ <;> cases sessionId <;> rfl

/-- C5 counterexample: the usage-summary operation's request is not scoped
to a provider — it differs from the provider-scoped request the spec
describes, and carries no `provider` parameter at all. -/
theorem usage_summary_not_provider_scoped :
    TokenApi.getSummaryRequest ≠ getUsageSummaryRequestSpec "groq"
    ∧ TokenApi.getSummaryRequest.params.lookup "provider" = none := by
  exact ⟨by decide, rfl⟩

/-- C5 (amended): the usage-summary operation exposed to the presentation
layer takes no provider argument — its request `GET /api/tokens/summary`
carries no parameters and its response covers all providers; per-provider
scoping exists only on the separate usage-history operation
`getUsage(provider?, days)`, whose request carries the provider as a query
parameter. -/
theorem usage_requests_provider_scoping :
    TokenApi.getSummaryRequest.path = "/api/tokens/summary"
    ∧ TokenApi.getSummaryRequest.params = []
    ∧ ∀ (p : String) (days : Nat),
        (TokenApi.getUsageRequest (some p) days).path = "/api/tokens/usage"
        ∧ (TokenApi.getUsageRequest (some p) days).params.lookup "provider" = some p := by
  refine ⟨rfl, rfl, ?_⟩
  intro p days
  exact ⟨rfl, rfl⟩

/-- C6: for every file upload through `DocumentService.uploadFile`, the
client performs exactly three outward calls in order — request an upload
slot, PUT the file to the returned presigned `upload_url`, confirm with the
returned `document_id` and the file's size — the confirmation call is the
unique (and final) ingestion-triggering step, and the confirmed document
record is returned. -/
theorem upload_three_steps (file : FileInfo) (groupId : Option String)
    (resp : UploadRequestResponse) (confirmed : Document)
    (item : UploadItem) (rest : List UploadItem)
    (hresp : resp.uploads = item :: rest) :
    DocumentService.uploadFile file groupId resp confirmed =
      some ([UploadStep.requestUpload
               { files := [{ filename := file.name, file_size := file.size,
                             content_type := file.type }]
                 group_id := jsOrNull groupId },
             UploadStep.putFile item.upload_url file,
             UploadStep.confirmUpload
               { document_id := item.document_id, file_size := file.size,
                 group_id := jsOrNull groupId }], confirmed)
    ∧ ([UploadStep.requestUpload
          { files := [{ filename := file.name, file_size := file.size,
                        content_type := file.type }]
            group_id := jsOrNull groupId },
        UploadStep.putFile item.upload_url file,
        UploadStep.confirmUpload
          { document_id := item.document_id, file_size := file.size,
            group_id := jsOrNull groupId }].filter triggersIngestion
        = [UploadStep.confirmUpload
            { document_id := item.document_id, file_size := file.size,
              group_id := jsOrNull groupId }])
    ∧ ([UploadStep.requestUpload
          { files := [{ filename := file.name, file_size := file.size,
                        content_type := file.type }]
            group_id := jsOrNull groupId },
        UploadStep.putFile item.upload_url file,
        UploadStep.confirmUpload
          { document_id := item.document_id, file_size := file.size,
            group_id := jsOrNull groupId }].getLast?
        = some (UploadStep.confirmUpload
            { document_id := item.document_id, file_size := file.size,
              group_id := jsOrNull groupId })) := by
  refine ⟨?_, rfl, rfl⟩
  simp [DocumentService.uploadFile, hresp]

/-- Witness for C6 at a concrete file, group and upload-slot response. -/
theorem upload_three_steps_witness :
    (UploadRequestResponse.mk [⟨"d1", "spec.pdf", "application/pdf", "https://put", "k1", 300⟩]).uploads
      = ⟨"d1", "spec.pdf", "application/pdf", "https://put", "k1", 300⟩ :: []
    ∧ DocumentService.uploadFile ⟨"spec.pdf", 42, "application/pdf"⟩ (some "g1")
        (UploadRequestResponse.mk [⟨"d1", "spec.pdf", "application/pdf", "https://put", "k1", 300⟩])
        ⟨"d1", "u1", "spec.pdf", 42, "application/pdf", "pending", some "g1", "t", "t"⟩ =
      some ([UploadStep.requestUpload
               { files := [{ filename := "spec.pdf", file_size := 42,
                             content_type := "application/pdf" }]
                 group_id := jsOrNull (some "g1") },
             UploadStep.putFile "https://put" ⟨"spec.pdf", 42, "application/pdf"⟩,
             UploadStep.confirmUpload
               { document_id := "d1", file_size := 42, group_id := jsOrNull (some "g1") }],
            ⟨"d1", "u1", "spec.pdf", 42, "application/pdf", "pending", some "g1", "t", "t"⟩) :=
  ⟨rfl,
   (upload_three_steps ⟨"spec.pdf", 42, "application/pdf"⟩ (some "g1")
      (UploadRequestResponse.mk [⟨"d1", "spec.pdf", "application/pdf", "https://put", "k1", 300⟩])
      ⟨"d1", "u1", "spec.pdf", 42, "application/pdf", "pending", some "g1", "t", "t"⟩
      ⟨"d1", "spec.pdf", "application/pdf", "https://put", "k1", 300⟩ [] rfl).1⟩

/-- Evaluation of `sendMessage` when the backend query call fails: the error
detail is recorded, `isSending` is cleared and the optimistic user message is
filtered back out. -/
theorem sendMessage_error_eq (s : ChatState) (query : String) (now1 now2 : Nat)
    (iso1 iso2 : String) (e : ApiErr)
    (fetchRes getRes : Except ApiErr (List ChatSession)) (h : jsTrim query ≠ "") :
    sendMessage s query now1 now2 iso1 iso2 (Except.error e) fetchRes getRes =
      { s with
          messages := (s.messages ++ [userMessageOf s query now1 iso1]).filter
            (fun m => !(m.id == (userMessageOf s query now1 iso1).id))
          isSending := false
          error := some (errDetail e "Failed to send message") } := by
  simp only [sendMessage, if_neg h]

/-- The refresh block either leaves the message list alone or filters the
temp id out of it, and either keeps `isSending` or clears it. -/
theorem refreshAfterSend_spec (s2 : ChatState) (cs : ChatSession) (tempId : String)
    (fetchRes getRes : Except ApiErr (List ChatSession)) :
    ((refreshAfterSend s2 cs tempId fetchRes getRes).messages = s2.messages
      ∨ (refreshAfterSend s2 cs tempId fetchRes getRes).messages
          = s2.messages.filter (fun m => !(m.id == tempId)))
    ∧ ((refreshAfterSend s2 cs tempId fetchRes getRes).isSending = s2.isSending
      ∨ (refreshAfterSend s2 cs tempId fetchRes getRes).isSending = false) := by
  unfold refreshAfterSend
  cases getRes with
  | error ge =>
      dsimp only
      constructor
      · right
        cases fetchRes <;> rfl
      · right
        rfl
  | ok us =>
      dsimp only
      cases hfind : List.find? (fun t => t.id == cs.id) us with
      | none =>
          constructor
          · left
            cases fetchRes <;> rfl
          · left
            cases fetchRes <;> rfl
      | some u =>
          dsimp only
          by_cases ht : u.title ≠ cs.title
          · rw [if_pos ht]
            constructor
            · left
              cases fetchRes <;> rfl
            · left
              cases fetchRes <;> rfl
          · rw [if_neg ht]
            constructor
            · left
              cases fetchRes <;> rfl
            · left
              cases fetchRes <;> rfl

/-- Evaluation of `sendMessage` when the backend query call succeeds: the
final message list is the old list plus the optimistic user message plus the
locally built assistant message — possibly with the user-message id filtered
out again, when the post-answer session refresh fails — and `isSending` ends
cleared. -/
theorem sendMessage_ok_spec (s : ChatState) (query : String) (now1 now2 : Nat)
    (iso1 iso2 : String) (resp : ChatQueryResponse)
    (fetchRes getRes : Except ApiErr (List ChatSession)) (h : jsTrim query ≠ "") :
    ((sendMessage s query now1 now2 iso1 iso2 (Except.ok resp) fetchRes getRes).messages
        = (s.messages ++ [userMessageOf s query now1 iso1])
            ++ [assistantMessageOf s resp now2 iso2]
      ∨ (sendMessage s query now1 now2 iso1 iso2 (Except.ok resp) fetchRes getRes).messages
        = ((s.messages ++ [userMessageOf s query now1 iso1])
            ++ [assistantMessageOf s resp now2 iso2]).filter
            (fun m => !(m.id == (userMessageOf s query now1 iso1).id)))
    ∧ (sendMessage s query now1 now2 iso1 iso2 (Except.ok resp) fetchRes getRes).isSending
        = false := by
  have key : ∀ (s2 : ChatState) (cs : ChatSession) (tid : String),
      s2.messages = (s.messages ++ [userMessageOf s query now1 iso1])
          ++ [assistantMessageOf s resp now2 iso2] →
      s2.isSending = false →
      ((refreshAfterSend s2 cs tid fetchRes getRes).messages
          = (s.messages ++ [userMessageOf s query now1 iso1])
              ++ [assistantMessageOf s resp now2 iso2]
        ∨ (refreshAfterSend s2 cs tid fetchRes getRes).messages
          = ((s.messages ++ [userMessageOf s query now1 iso1])
              ++ [assistantMessageOf s resp now2 iso2]).filter (fun m => !(m.id == tid)))
      ∧ (refreshAfterSend s2 cs tid fetchRes getRes).isSending = false := by
    intro s2 cs tid hm hsend
    obtain ⟨h1, h2⟩ := refreshAfterSend_spec s2 cs tid fetchRes getRes
    rw [hm] at h1
    rw [hsend] at h2
    refine ⟨h1, ?_⟩
    rcases h2 with h2 | h2 <;> exact h2
  simp only [sendMessage, if_neg h]
  rcases hcs : s.currentSession with _ | cs
  · exact ⟨Or.inl rfl, rfl⟩
  · exact key _ cs _ rfl rfl

/-- C3 counterexample: a run in which the backend query succeeds (so the
assistant answer is appended) but the subsequent session refresh fails ends
with BOTH an assistant answer in the message list AND a non-null error —
refuting that the caller ends in exactly one of the two states. -/
theorem chat_send_both_answer_and_error :
    (sendMessage ⟨[], some ⟨"s1", "u1", none, "t0", "t0", []⟩, [], false, false, none⟩
        "hi" 1 2 "i1" "i2" (Except.ok ⟨"the answer", []⟩)
        (Except.ok []) (Except.error none)).error = some "Failed to send message"
    ∧ (⟨"assistant-2", "s1", Role.assistant, "the answer", "i2"⟩ : ChatMessage)
        ∈ (sendMessage ⟨[], some ⟨"s1", "u1", none, "t0", "t0", []⟩, [], false, false, none⟩
            "hi" 1 2 "i1" "i2" (Except.ok ⟨"the answer", []⟩)
            (Except.ok []) (Except.error none)).messages := by
  exact ⟨by decide, by decide⟩

/-- C3 (amended): for every `sendMessage` call with a non-blank query, the
caller ends in at least one of two states — an assistant message carrying
the backend's answer text is in the messages list, or the error field is a
specific non-null message (both at once only when the answer arrived and the
subsequent session refresh failed) — never silently in neither; `isSending`
is always cleared; and when the backend query call itself fails, the error
is set to its detail (or the fixed fallback text) and the optimistically
appended user message is removed. -/
theorem chat_send_answer_or_error (s : ChatState) (query : String)
    (now1 now2 : Nat) (iso1 iso2 : String)
    (queryRes : Except ApiErr ChatQueryResponse)
    (fetchRes getRes : Except ApiErr (List ChatSession))
    (h : jsTrim query ≠ "") :
    ((∃ m, m ∈ (sendMessage s query now1 now2 iso1 iso2 queryRes fetchRes getRes).messages
        ∧ m.role = Role.assistant)
      ∨ (sendMessage s query now1 now2 iso1 iso2 queryRes fetchRes getRes).error ≠ none)
    ∧ (sendMessage s query now1 now2 iso1 iso2 queryRes fetchRes getRes).isSending = false
    ∧ (∀ e, queryRes = Except.error e →
        (sendMessage s query now1 now2 iso1 iso2 queryRes fetchRes getRes).error
            = some (errDetail e "Failed to send message")
        ∧ (sendMessage s query now1 now2 iso1 iso2 queryRes fetchRes getRes).messages
            = s.messages.filter (fun m => !(m.id == "temp-" ++ toString now1)))
    ∧ (∀ resp, queryRes = Except.ok resp →
        ∃ m, m ∈ (sendMessage s query now1 now2 iso1 iso2 queryRes fetchRes getRes).messages
          ∧ m.role = Role.assistant ∧ m.content = resp.message) := by
  cases queryRes with
  | error e =>
      rw [sendMessage_error_eq s query now1 now2 iso1 iso2 e fetchRes getRes h]
      refine ⟨Or.inr (by simp), rfl, ?_, ?_⟩
      · intro e' he'
        injection he' with h1
        subst h1
        refine ⟨rfl, ?_⟩
        simp [List.filter_append, userMessageOf]
      · intro resp hresp
        simp at hresp
  | ok resp =>
      obtain ⟨hmsg, hsend⟩ :=
        sendMessage_ok_spec s query now1 now2 iso1 iso2 resp fetchRes getRes h
      have hidne :
          (!((assistantMessageOf s resp now2 iso2).id == (userMessageOf s query now1 iso1).id))
            = true := by
        simp only [assistantMessageOf, userMessageOf, Bool.not_eq_true', beq_eq_false_iff_ne]
        exact assistant_id_ne_temp_id _ _
      have hmem : assistantMessageOf s resp now2 iso2
          ∈ (sendMessage s query now1 now2 iso1 iso2 (Except.ok resp) fetchRes getRes).messages := by
        rcases hmsg with hmsg | hmsg
        · rw [hmsg]; simp
        · rw [hmsg]
          exact List.mem_filter.mpr ⟨by simp, hidne⟩
      refine ⟨Or.inl ⟨_, hmem, rfl⟩, hsend, ?_, ?_⟩
      · intro e he
        simp at he
      · intro resp' hresp
        injection hresp with h1
        subst h1
        exact ⟨_, hmem, rfl, rfl⟩

/-- Witness for C3 (amended) at a concrete state and failing query call. -/
theorem chat_send_answer_or_error_witness :
    jsTrim "hi" ≠ ""
    ∧ (((∃ m, m ∈ (sendMessage ⟨[], none, [], false, false, none⟩
            "hi" 1 2 "i1" "i2" (Except.error (some "quota exceeded"))
            (Except.ok []) (Except.ok [])).messages ∧ m.role = Role.assistant)
        ∨ (sendMessage ⟨[], none, [], false, false, none⟩
            "hi" 1 2 "i1" "i2" (Except.error (some "quota exceeded"))
            (Except.ok []) (Except.ok [])).error ≠ none)
      ∧ (sendMessage ⟨[], none, [], false, false, none⟩
          "hi" 1 2 "i1" "i2" (Except.error (some "quota exceeded"))
          (Except.ok []) (Except.ok [])).isSending = false
      ∧ (∀ e, (Except.error (some "quota exceeded") : Except ApiErr ChatQueryResponse)
            = Except.error e →
          (sendMessage ⟨[], none, [], false, false, none⟩
              "hi" 1 2 "i1" "i2" (Except.error (some "quota exceeded"))
              (Except.ok []) (Except.ok [])).error
              = some (errDetail e "Failed to send message")
          ∧ (sendMessage ⟨[], none, [], false, false, none⟩
              "hi" 1 2 "i1" "i2" (Except.error (some "quota exceeded"))
              (Except.ok []) (Except.ok [])).messages
              = List.filter (fun m => !(m.id == "temp-" ++ toString 1)) [])
      ∧ (∀ resp, (Except.error (some "quota exceeded") : Except ApiErr ChatQueryResponse)
            = Except.ok resp →
          ∃ m, m ∈ (sendMessage ⟨[], none, [], false, false, none⟩
              "hi" 1 2 "i1" "i2" (Except.error (some "quota exceeded"))
              (Except.ok []) (Except.ok [])).messages
            ∧ m.role = Role.assistant ∧ m.content = resp.message)) :=
  ⟨by decide,
   chat_send_answer_or_error ⟨[], none, [], false, false, none⟩ "hi" 1 2 "i1" "i2"
     (Except.error (some "quota exceeded")) (Except.ok []) (Except.ok []) (by decide)⟩

/-- C8: a query whose trimmed form is empty makes `sendMessage` return
immediately with the whole store state — every field — unchanged. -/
theorem chat_send_blank_noop (s : ChatState) (query : String) (now1 now2 : Nat)
    (iso1 iso2 : String) (queryRes : Except ApiErr ChatQueryResponse)
    (fetchRes getRes : Except ApiErr (List ChatSession)) (h : jsTrim query = "") :
    sendMessage s query now1 now2 iso1 iso2 queryRes fetchRes getRes = s := by
  simp [sendMessage, h]

/-- Witness for C8 at a whitespace-only query and a concrete store state. -/
theorem chat_send_blank_noop_witness :
    jsTrim "   " = ""
    ∧ sendMessage ⟨[], none, [⟨"m1", "s1", Role.user, "old", "t"⟩], true, false, some "boom"⟩
        "   " 1 2 "i1" "i2" (Except.error none) (Except.ok []) (Except.ok [])
      = ⟨[], none, [⟨"m1", "s1", Role.user, "old", "t"⟩], true, false, some "boom"⟩ :=
  ⟨by decide,
   chat_send_blank_noop ⟨[], none, [⟨"m1", "s1", Role.user, "old", "t"⟩], true, false, some "boom"⟩
     "   " 1 2 "i1" "i2" (Except.error none) (Except.ok []) (Except.ok []) (by decide)⟩

/-- C7: chat messages are immutable once created — every chat-store
operation either leaves the messages list alone, appends a newly built
message, removes messages by id, or replaces the whole list with the
server's copy of a session; any message still present after an operation is
exactly (id, role, content, created_at and all) a message that was already
in the list or one of those new messages, never an edited copy. -/
theorem chat_messages_never_edited :
    (∀ s r, (fetchSessions s r).messages = s.messages)
    ∧ (∀ s r m, m ∈ (createSession s r).messages →
        m ∈ s.messages ∨ ∃ sess, r = Except.ok sess ∧ m ∈ sess.messages)
    ∧ (∀ s r m, m ∈ (selectSession s r).messages →
        m ∈ s.messages ∨ ∃ sess, r = Except.ok sess ∧ m ∈ sess.messages)
    ∧ (∀ s query now1 now2 iso1 iso2 queryRes fetchRes getRes m,
        m ∈ (sendMessage s query now1 now2 iso1 iso2 queryRes fetchRes getRes).messages →
        m ∈ s.messages ∨ m = userMessageOf s query now1 iso1
          ∨ ∃ resp, queryRes = Except.ok resp ∧ m = assistantMessageOf s resp now2 iso2)
    ∧ (∀ s id r, (deleteSession s id r).messages = [] ∨ (deleteSession s id r).messages = s.messages)
    ∧ (∀ s id r, (updateSessionTitle s id r).messages = s.messages)
    ∧ (∀ s e, (setChatError s e).messages = s.messages) := by
  refine ⟨?_, ?_, ?_, ?_, ?_, ?_, ?_⟩
  · intro s r
    cases r <;> rfl
  · intro s r m hm
    cases r with
    | ok sess => exact Or.inr ⟨sess, rfl, hm⟩
    | error e => exact Or.inl hm
  · intro s r m hm
    cases r with
    | ok sess => exact Or.inr ⟨sess, rfl, hm⟩
    | error e => exact Or.inl hm
  · intro s query now1 now2 iso1 iso2 queryRes fetchRes getRes m hm
    by_cases ht : jsTrim query = ""
    · simp only [sendMessage, if_pos ht] at hm
      exact Or.inl hm
    · cases queryRes with
      | error e =>
          rw [sendMessage_error_eq s query now1 now2 iso1 iso2 e fetchRes getRes ht] at hm
          have hm' := List.mem_of_mem_filter hm
          rcases List.mem_append.mp hm' with h' | h'
          · exact Or.inl h'
          · exact Or.inr (Or.inl (by simpa using h'))
      | ok resp =>
          obtain ⟨hmsg, -⟩ :=
            sendMessage_ok_spec s query now1 now2 iso1 iso2 resp fetchRes getRes ht
          have hm2 : m ∈ (s.messages ++ [userMessageOf s query now1 iso1])
              ++ [assistantMessageOf s resp now2 iso2] := by
            rcases hmsg with he | he
            · rw [he] at hm
              exact hm
            · rw [he] at hm
              exact List.mem_of_mem_filter hm
          rcases List.mem_append.mp hm2 with h' | h'
          · rcases List.mem_append.mp h' with h'' | h''
            · exact Or.inl h''
            · exact Or.inr (Or.inl (by simpa using h''))
          · exact Or.inr (Or.inr ⟨resp, rfl, by simpa using h'⟩)
  · intro s id r
    cases r with
    | error e => exact Or.inr rfl
    | ok u =>
        unfold deleteSession
        dsimp only
        cases hcs : s.currentSession with
        | none => exact Or.inr rfl
        | some cs =>
            dsimp only
            by_cases hid : cs.id = id
            · rw [if_pos hid]
              exact Or.inl rfl
            · rw [if_neg hid]
              exact Or.inr rfl
  · intro s id r
    cases r <;> rfl
  · intro s e
    rfl

/-- Witness for C7 at a concrete store state and server session. -/
theorem chat_messages_never_edited_witness :
    (⟨"m1", "s1", Role.assistant, "hello", "t"⟩ : ChatMessage)
      ∈ (createSession ⟨[], none, [], false, false, none⟩
          (Except.ok ⟨"s1", "u1", none, "t", "t",
            [⟨"m1", "s1", Role.assistant, "hello", "t"⟩]⟩)).messages
    ∧ ((⟨"m1", "s1", Role.assistant, "hello", "t"⟩ : ChatMessage)
          ∈ ([] : List ChatMessage)
      ∨ ∃ sess, (Except.ok (⟨"s1", "u1", none, "t", "t",
            [⟨"m1", "s1", Role.assistant, "hello", "t"⟩]⟩ : ChatSession)
            : Except ApiErr ChatSession) = Except.ok sess
          ∧ (⟨"m1", "s1", Role.assistant, "hello", "t"⟩ : ChatMessage) ∈ sess.messages) :=
  ⟨by decide,
   chat_messages_never_edited.2.1 ⟨[], none, [], false, false, none⟩
     (Except.ok ⟨"s1", "u1", none, "t", "t", [⟨"m1", "s1", Role.assistant, "hello", "t"⟩]⟩)
     ⟨"m1", "s1", Role.assistant, "hello", "t"⟩ (by decide)⟩

/-- C4: over any serialization of concurrent calls (increments being atomic,
every interleaving is some order of the list), the TokenGovernor's committed
counter equals exactly the sum of the actual costs of the allowed calls (no
double-counting, no lost updates); a call is denied precisely when committed
usage plus its estimated cost would exceed the configured limit; decisions
already issued are never changed by later calls; and when every call's
actual cost overshoots its estimate by at most `B`, total committed usage
never exceeds `limit + B`. -/
theorem token_governor_atomicity_and_bounds :
    (∀ (limit : Option Nat) (c : Nat) (calls : List GovCall),
        (govRun limit c calls).1
          = c + (((calls.zip (govRun limit c calls).2).map
              (fun p => if p.2 then p.1.actual else 0)).sum))
    ∧ (∀ (l committed : Nat) (c : GovCall),
        (govStep (some l) committed c).2 = false ↔ l < committed + c.est)
    ∧ (∀ (limit : Option Nat) (calls more : List GovCall) (c : Nat),
        ((govRun limit c (calls ++ more)).2).take calls.length = (govRun limit c calls).2)
    ∧ (∀ (l B : Nat) (calls : List GovCall),
        (∀ call ∈ calls, call.actual ≤ call.est + B) →
        (govRun (some l) 0 calls).1 ≤ l + B) :=
  ⟨fun limit c calls => govRun_committed_sum limit calls c,
   govStep_denied_iff,
   fun limit calls more c => govRun_decisions_stable limit calls more c,
   fun l B calls h => govRun_bounded l B calls 0 (Nat.zero_le _) h⟩

/-- Witness for C4 at the spec's scenario: daily limit 1000, two concurrent
calls of 600 tokens each — exactly one is allowed, and committed usage stays
within the limit. -/
theorem token_governor_atomicity_and_bounds_witness :
    (∀ call ∈ [GovCall.mk 600 600, GovCall.mk 600 600], call.actual ≤ call.est + 0)
    ∧ (govRun (some 1000) 0 [GovCall.mk 600 600, GovCall.mk 600 600]).1 ≤ 1000 + 0
    ∧ (govRun (some 1000) 0 [GovCall.mk 600 600, GovCall.mk 600 600]).2 = [true, false] :=
  ⟨by decide,
   token_governor_atomicity_and_bounds.2.2.2 1000 0
     [GovCall.mk 600 600, GovCall.mk 600 600] (by decide),
   by decide⟩

/-- C10: a successful `deleteDocument(id)` removes exactly the documents
whose id equals the argument and keeps every other document unchanged;
`selectedDocument` becomes null exactly when it was the deleted document and
is kept otherwise (a null selection stays null); on failure the documents
list, the selection and the upload progress are untouched and only `error`
and `isLoading` change. -/
theorem document_delete_frame (s : DocumentState) (id : String) (r : Except ApiErr Unit) :
    (r = Except.ok () →
        (deleteDocument s id r).documents = s.documents.filter (fun d => !(d.id == id))
        ∧ (∀ d, d ∈ s.documents → d.id ≠ id → d ∈ (deleteDocument s id r).documents)
        ∧ (∀ d, d ∈ (deleteDocument s id r).documents → d ∈ s.documents ∧ d.id ≠ id)
        ∧ (∀ sd, s.selectedDocument = some sd →
            (((deleteDocument s id r).selectedDocument = none) ↔ sd.id = id)
            ∧ (sd.id ≠ id → (deleteDocument s id r).selectedDocument = some sd))
        ∧ (s.selectedDocument = none → (deleteDocument s id r).selectedDocument = none)
        ∧ (deleteDocument s id r).isLoading = false)
    ∧ (∀ e, r = Except.error e →
        (deleteDocument s id r).documents = s.documents
        ∧ (deleteDocument s id r).selectedDocument = s.selectedDocument
        ∧ (deleteDocument s id r).uploadProgress = s.uploadProgress
        ∧ (deleteDocument s id r).error = some (errDetail e "Delete failed")
        ∧ (deleteDocument s id r).isLoading = false) := by
  constructor
  · intro hok
    subst hok
    refine ⟨rfl, ?_, ?_, ?_, ?_, rfl⟩
    · intro d hd hne
      exact List.mem_filter.mpr ⟨hd, by simpa using hne⟩
    · intro d hd
      obtain ⟨h1, h2⟩ := List.mem_filter.mp hd
      exact ⟨h1, by simpa using h2⟩
    · intro sd hsd
      by_cases hid : sd.id = id
      · constructor
        · simp [deleteDocument, hsd, hid]
        · intro hne
          exact absurd hid hne
      · constructor
        · simp [deleteDocument, hsd, hid]
        · intro _
          simp [deleteDocument, hsd, hid]
    · intro hnone
      simp [deleteDocument, hnone]
  · intro e he
    subst he
    exact ⟨rfl, rfl, rfl, rfl, rfl⟩

/-- Witness for C10 at a concrete store holding two documents with the
deleted one selected. -/
theorem document_delete_frame_witness :
    ((Except.ok () : Except ApiErr Unit) = Except.ok ())
    ∧ (deleteDocument
        ⟨[⟨"a", "u1", "a.pdf", 1, "application/pdf", "indexed", none, "t", "t"⟩,
          ⟨"b", "u1", "b.pdf", 2, "application/pdf", "indexed", none, "t", "t"⟩],
         some ⟨"a", "u1", "a.pdf", 1, "application/pdf", "indexed", none, "t", "t"⟩,
         false, none, 0⟩ "a" (Except.ok ())).documents
        = List.filter (fun d => !(d.id == "a"))
            [⟨"a", "u1", "a.pdf", 1, "application/pdf", "indexed", none, "t", "t"⟩,
             ⟨"b", "u1", "b.pdf", 2, "application/pdf", "indexed", none, "t", "t"⟩]
    ∧ (deleteDocument
        ⟨[⟨"a", "u1", "a.pdf", 1, "application/pdf", "indexed", none, "t", "t"⟩,
          ⟨"b", "u1", "b.pdf", 2, "application/pdf", "indexed", none, "t", "t"⟩],
         some ⟨"a", "u1", "a.pdf", 1, "application/pdf", "indexed", none, "t", "t"⟩,
         false, none, 0⟩ "a" (Except.ok ())).selectedDocument = none :=
  ⟨rfl,
   ((document_delete_frame
      ⟨[⟨"a", "u1", "a.pdf", 1, "application/pdf", "indexed", none, "t", "t"⟩,
        ⟨"b", "u1", "b.pdf", 2, "application/pdf", "indexed", none, "t", "t"⟩],
       some ⟨"a", "u1", "a.pdf", 1, "application/pdf", "indexed", none, "t", "t"⟩,
       false, none, 0⟩ "a" (Except.ok ())).1 rfl).1,
   (((document_delete_frame
      ⟨[⟨"a", "u1", "a.pdf", 1, "application/pdf", "indexed", none, "t", "t"⟩,
        ⟨"b", "u1", "b.pdf", 2, "application/pdf", "indexed", none, "t", "t"⟩],
       some ⟨"a", "u1", "a.pdf", 1, "application/pdf", "indexed", none, "t", "t"⟩,
       false, none, 0⟩ "a" (Except.ok ())).1 rfl).2.2.2.1
      ⟨"a", "u1", "a.pdf", 1, "application/pdf", "indexed", none, "t", "t"⟩ rfl).1.mpr rfl⟩

/-- C9: `logout` always clears the credentials — whether or not the
underlying API call throws, the `auth_token` entry is removed from
localStorage and the auth store ends with `user` null, `token` null and
`isAuthenticated` false. -/
theorem auth_logout_always_clears (s : AuthState) (storage : Storage) (apiThrows : Bool) :
    (authLogout s storage apiThrows).1.user = none
    ∧ (authLogout s storage apiThrows).1.token = none
    ∧ (authLogout s storage apiThrows).1.isAuthenticated = false
    ∧ getItem (authLogout s storage apiThrows).2.1 "auth_token" = none :=
  ⟨rfl, rfl, rfl, getItem_removeItem storage "auth_token"⟩

end RAG
